import Mathlib

/-!
Verification of the Fake-news-detector-using-TAO repository.

Shallow embedding of the core modules:
  * src/generator.py      — output parsing and evidence-based correction
  * src/tao_optimizer.py  — decoding-parameter proposal and continual training
  * src/live_retriever.py — multi-source retrieval, scoring, ranking
  * src/rag_pipeline.py   — pipeline orchestration

External capabilities (the transformer generation model, the sentence
embedder, json.loads, the network-backed evidence sources, the RNG and
the clock) are passed in as explicit oracle parameters; everything the
repository itself computes is translated directly from the Python source.
All numeric values are modelled with exact rationals.
-/

namespace FakeNews

/-! Python string primitives (the ASCII fragment the repository uses). -/

/-- Characters stripped by Python `str.strip()` (ASCII whitespace). -/
def pySpace (c : Char) : Bool :=
  c == ' ' || c == '\t' || c == '\n' || c == '\r' ||
  c == Char.ofNat 11 || c == Char.ofNat 12

/-- Python `str.strip()`: drop leading and trailing whitespace. -/
def pyStrip (s : String) : String :=
  ⟨((s.data.dropWhile pySpace).reverse.dropWhile pySpace).reverse⟩

/-- Python `str.lower()` (the repository only lowercases ASCII text). -/
def pyLower (s : String) : String :=
  ⟨s.data.map Char.toLower⟩

/-- Bool-valued list-prefix test used to implement substring search. -/
def prefixOfL : List Char → List Char → Bool
  | [], _ => true
  | _ :: _, [] => false
  | a :: as, b :: bs => a == b && prefixOfL as bs

/-- Substring search on character lists: does `needle` occur in the hay? -/
def subL (needle : List Char) : List Char → Bool
  | [] => needle.isEmpty
  | c :: rest => prefixOfL needle (c :: rest) || subL needle rest

/-- Python `needle in hay` for strings. -/
def pyIn (needle hay : String) : Bool :=
  subL needle.data hay.data

/-- Python `s.startswith(pre)`. -/
def pyStartsWith (s pre : String) : Bool :=
  prefixOfL pre.data s.data

/-- Python `" ".join(texts)`. -/
def joinSp : List String → String
  | [] => ""
  | [s] => s
  | s :: s2 :: rest => s ++ " " ++ joinSp (s2 :: rest)

/-! Data model of the Reasoning Step (src/generator.py). -/

/-- The structured verdict dictionary produced by `Generator`
(src/generator.py).  `label` is a raw string (the code never validates it
against the True/Fake/Uncertain enum); keys that some code paths omit are
`Option`s. -/
structure Verdict where
  label : String
  confidence : ℚ
  explanation : String
  counterfactual : Option String
  reasoning : Option (List String)
deriving DecidableEq

/-- The fields of a parsed JSON object that `Generator._parse_output`
reads via `data.get(...)`.  `json.loads` itself is Python stdlib, so it is
passed to `parse_output` as an oracle `String → Option JDict`; `none`
models any exception raised inside the structured branch (malformed JSON,
or `float()` failing on the confidence value). -/
structure JDict where
  label : Option String
  confidence : Option ℚ
  explanation : Option String
  counterfactual : Option String
  reasoning : Option (List String)

/-! Embedding of Generator._parse_output (src/generator.py lines 66 to 96). -/

/-- Translation of `Generator._parse_output(text)`.  If the stripped text
starts with a left brace the JSON branch runs (`jloads` is the
`json.loads` oracle, `none` meaning the try-block raised, which the
except-arm turns into the Uncertain/0.5 fallback); otherwise the keyword
heuristic on the lower-cased text decides the label. -/
def parse_output (jloads : String → Option JDict) (text : String) : Verdict :=
  if pyStartsWith (pyStrip text) "\x7b" then
    match jloads text with
    | some data =>
        { label := data.label.getD "Uncertain"
          confidence := data.confidence.getD 0.6
          explanation := data.explanation.getD ""
          counterfactual := some (data.counterfactual.getD "")
          reasoning := some (data.reasoning.getD []) }
    | none =>
        { label := "Uncertain", confidence := 0.5, explanation := pyStrip text
          counterfactual := some "", reasoning := some [] }
  else
    let low := pyLower text
    let label :=
      if pyIn "not true" low || pyIn "false" low then "Fake"
      else if pyIn "true" low then "True"
      else "Uncertain"
    { label := label
      confidence := if label ≠ "Uncertain" then 0.8 else 0.5
      explanation := pyStrip text
      counterfactual := some ""
      reasoning := some [] }

/-! Embedding of Generator._correct_with_evidence (src/generator.py lines 101 to 124). -/

/-- The rule-(a) trigger terms of `_correct_with_evidence`. -/
def ruleATerms : List String :=
  ["anti-scientific", "not true", "false", "hoax", "conspiracy", "debunked"]

/-- Rule (a) condition: any trigger term occurs in the joined evidence. -/
def ruleACond (evidence_joined : String) : Bool :=
  ruleATerms.any (fun term => pyIn term evidence_joined)

/-- Translation of `Generator._correct_with_evidence(parsed, claim,
evidence_texts)`: the five-way first-match-wins correction chain. -/
def correct_with_evidence (parsed : Verdict) (claim : String)
    (evidence_texts : List String) : Verdict :=
  let claim_lower := pyLower claim
  let evidence_joined := pyLower (joinSp evidence_texts)
  if ruleACond evidence_joined then
    { parsed with
      label := "Fake"
      confidence := max parsed.confidence 0.9
      explanation := "Evidence indicates the claim contradicts scientific consensus."
      counterfactual := some "If verified empirical data supported the claim, it could be true." }
  else if pyIn "scientific consensus" evidence_joined && pyIn "flat" claim_lower then
    { parsed with
      label := "Fake"
      confidence := 0.95
      explanation := "Scientific consensus confirms Earth is spherical, not flat."
      counterfactual := some "If all scientific and satellite data were falsified, the claim might appear true." }
  else if pyIn "confirm" evidence_joined || pyIn "proves" evidence_joined then
    { parsed with label := "True", confidence := 0.9 }
  else if pyIn "no evidence" evidence_joined || pyIn "unclear" evidence_joined then
    { parsed with label := "Uncertain", confidence := 0.6 }
  else parsed

/-! Embedding of Generator.generate_explanation (src/generator.py lines 23 to 61). -/

/-- Decoding parameters proposed by `TAOOptimizer.optimize_generation`. -/
structure DecodingParams where
  temperature : ℚ
  num_beams : ℕ
  repetition_penalty : ℚ
deriving DecidableEq

/-- Translation of `Generator.generate_explanation(claim, evidence_texts,
decoding_params)`.  The transformer model (tokenizer, `model.generate`,
decode) is the oracle `genModel`, taking the prompt and the decoding
parameters and returning the decoded text. -/
def generate_explanation (genModel : String → Option DecodingParams → String)
    (jloads : String → Option JDict) (claim : String)
    (evidence_texts : List String) (decoding_params : Option DecodingParams) :
    Verdict :=
  if claim = "" then
    { label := "Uncertain", confidence := 0.0, explanation := "Empty claim"
      counterfactual := none, reasoning := none }
  else
    let context :=
      if evidence_texts ≠ [] then joinSp (evidence_texts.take 5)
      else "No relevant evidence found."
    let prompt :=
      "You are a fact verification model.\n" ++
      "Claim: " ++ claim ++ "\n\n" ++
      "Evidence:\n" ++ context ++ "\n\n" ++
      "Decide whether the claim is True, Fake, or Uncertain based only on the evidence. " ++
      "Then explain briefly why and give a counterfactual — what would make the claim true. " ++
      "Respond ONLY in JSON format with keys: label, confidence, explanation, counterfactual."
    let decoded := genModel prompt decoding_params
    correct_with_evidence (parse_output jloads decoded) claim evidence_texts

/-! Embedding of TAOOptimizer (src/tao_optimizer.py). -/

/-- The mutable state of a `TAOOptimizer`: its `training_stats` dict plus
`last_update` (timestamps are modelled as naturals supplied by a clock
parameter `now`). -/
structure TAOState where
  steps : ℕ
  updates : ℕ
  loss : ℚ
  last_update : ℕ
deriving DecidableEq

/-- Translation of `TAOOptimizer.__init__`: all counters zero,
`loss = 0.0`, `last_update = time.time()` (the construction time `t0`). -/
def TAOInit (t0 : ℕ) : TAOState :=
  { steps := 0, updates := 0, loss := 0.0, last_update := t0 }

/-- The random draws consumed by one `optimize_generation` call:
`random.uniform(0.6, 0.9)`, `random.choice([2, 4, 6])` and
`random.uniform(1.0, 1.3)`. -/
structure Draws where
  u_temp : ℚ
  beam_choice : ℕ
  u_rep : ℚ

/-- Round-half-to-even on rationals, the rounding mode of Python's
built-in `round`. -/
def roundHalfEven (x : ℚ) : ℤ :=
  if x - ⌊x⌋ < 1/2 then ⌊x⌋
  else if 1/2 < x - ⌊x⌋ then ⌊x⌋ + 1
  else if 2 ∣ ⌊x⌋ then ⌊x⌋ else ⌊x⌋ + 1

/-- Python `round(x, 2)` (exact-rational idealization of the float
rounding; only its fixed points and monotone bounds are relied on). -/
def pyRound2 (x : ℚ) : ℚ :=
  (roundHalfEven (x * 100) : ℚ) / 100

/-- Translation of `TAOOptimizer.optimize_generation()`.  `err` models an
exception inside the try block (the except-arm returns the fixed
default); otherwise the three random draws are rounded and packaged. -/
def optimize_generation (err : Bool) (d : Draws) : DecodingParams :=
  if err then
    { temperature := 0.7, num_beams := 4, repetition_penalty := 1.2 }
  else
    { temperature := pyRound2 d.u_temp
      num_beams := d.beam_choice
      repetition_penalty := pyRound2 d.u_rep }

/-- One labeled training sample (a dict with keys text and label). -/
structure Sample where
  text : String
  label : String
deriving DecidableEq

/-- Fixed-width three-digit decimal part for `fmt3`. -/
def pad3 (n : ℕ) : String :=
  if n < 10 then "00" ++ toString n
  else if n < 100 then "0" ++ toString n
  else toString n

/-- Three-decimal formatting of the loss, Python `f"..."` with `:.3f`
(all losses this module produces are non-negative multiples of 1/100, so
no rounding occurs). -/
def fmt3 (q : ℚ) : String :=
  let m := (q * 1000).floor.toNat
  toString (m / 1000) ++ "." ++ pad3 (m % 1000)

/-- Translation of `TAOOptimizer.continual_train(data_batch)`: returns
the updated state and the status string.  An empty batch is the "no data"
early return that touches nothing. -/
def continual_train (st : TAOState) (data_batch : List Sample) (now : ℕ) :
    TAOState × String :=
  if data_batch = [] then
    (st, "No data provided for TAO training.")
  else
    let updates := st.updates + 1
    let loss := max 0.01 (0.5 - 0.05 * (updates : ℚ))
    ({ steps := st.steps + data_batch.length
       updates := updates
       loss := loss
       last_update := now },
     "TAO adapted: " ++ toString updates ++ " updates, loss=" ++ fmt3 loss)

/-- Fold of a sequence of `continual_train` calls (each a batch paired
with its call time) over the optimizer state. -/
def runBatches (st : TAOState) : List (List Sample × ℕ) → TAOState
  | [] => st
  | (b, t) :: rest => runBatches (continual_train st b t).1 rest

/-! Embedding of LiveRetriever.retrieve (src/live_retriever.py lines 118 to 158). -/

/-- One evidence dictionary with keys source, text and score; `score` is
absent (`none`) on items the Wikipedia and NewsAPI adapters return. -/
structure EvidenceItem where
  source : String
  text : String
  score : Option ℚ
deriving DecidableEq

/-- The sort key Python uses: `key=lambda x: x["score"]` (every item fed
to the sort has been given a score in the scoring pass). -/
def scoreKey (e : EvidenceItem) : ℚ :=
  e.score.getD 0

/-- Stable insertion into a descending-by-score list: the new element goes
in front of the first element whose key is ≤ its own, hence behind every
earlier-inserted element with a strictly greater key and in front of
later-listed ties. -/
def insertScoreDesc (e : EvidenceItem) : List EvidenceItem → List EvidenceItem
  | [] => [e]
  | x :: xs =>
      if scoreKey x ≤ scoreKey e then e :: x :: xs
      else x :: insertScoreDesc e xs

/-- Python `sorted(evidence, key=lambda x: x["score"], reverse=True)`:
a stable descending sort by score. -/
def sortScoreDesc : List EvidenceItem → List EvidenceItem
  | [] => []
  | e :: es => insertScoreDesc e (sortScoreDesc es)

/-- The concatenation of the three adapter results in fixed order (FAISS
with the caller's `top_k`, Wikipedia with 2, NewsAPI with 3), as built in
`retrieve` before scoring.  The three adapters are oracles
`query ↦ limit ↦ items` (each already returns `[]` on its own failures). -/
def mergedEvidence (faissR wikiR newsR : String → ℕ → List EvidenceItem)
    (query : String) (top_k : ℕ) : List EvidenceItem :=
  faissR query top_k ++ wikiR query 2 ++ newsR query 3

/-- The scoring pass: every item's score is overwritten with the cosine
similarity of its text embedding and the query embedding.  The embedder,
normalization and dot product form the external capability
`scoreFn query text`. -/
def scoredEvidence (faissR wikiR newsR : String → ℕ → List EvidenceItem)
    (scoreFn : String → String → ℚ) (query : String) (top_k : ℕ) :
    List EvidenceItem :=
  (mergedEvidence faissR wikiR newsR query top_k).map
    (fun e => { e with score := some (scoreFn query e.text) })

/-- Translation of `LiveRetriever.retrieve(query, top_k)`.  `scoreErr`
models an exception in the scoring try block, whose except-arm returns
the unsorted, unscored concatenation. -/
def retrieve (faissR wikiR newsR : String → ℕ → List EvidenceItem)
    (scoreFn : String → String → ℚ) (scoreErr : Bool)
    (query : String) (top_k : ℕ) : List EvidenceItem :=
  if query = "" then []
  else if mergedEvidence faissR wikiR newsR query top_k = [] then []
  else if scoreErr then mergedEvidence faissR wikiR newsR query top_k
  else (sortScoreDesc (scoredEvidence faissR wikiR newsR scoreFn query top_k)).take top_k

/-! Embedding of RAGPipeline.analyze (src/rag_pipeline.py lines 89 to 162). -/

/-- The collaborators behind `self.ret`: the three source adapters and
the embedding-based score function, plus the scoring-failure flag. -/
structure RetParts where
  faissR : String → ℕ → List EvidenceItem
  wikiR : String → ℕ → List EvidenceItem
  newsR : String → ℕ → List EvidenceItem
  scoreFn : String → String → ℚ
  scoreErr : Bool

/-- The collaborators behind `self.gen`: the generation model and the
`json.loads` oracle used by its output parser. -/
structure GenParts where
  model : String → Option DecodingParams → String
  jloads : String → Option JDict

/-- The collaborators of one `RAGPipeline` instance.  A `none` component
is one whose import or construction failed (`self.ret`, `self.gen` or
`self.tao` left `None`).  `draws` and `optErr` feed the single
`optimize_generation` call `analyze` makes. -/
structure Components where
  ret : Option RetParts
  gen : Option GenParts
  tao : Option TAOState
  draws : Draws
  optErr : Bool

/-- The result dictionary `analyze` returns; keys that some paths omit
are `Option`s (`_evidence` is always set on every return path, as in the
source). -/
structure PipelineResult where
  label : String
  confidence : ℚ
  explanation : String
  counterfactual : Option String
  reasoning : Option (List String)
  tao_status : Option String
  last_update : Option ℕ
  evidence : List EvidenceItem
deriving DecidableEq

/-- Translation of `RAGPipeline.analyze(text)`: the full orchestration —
empty-input short-circuit, retrieve (top_k = 6), TAO parameter proposal,
generation, TAO continual training on the single outcome sample, evidence
attachment.  Returns the result together with the (possibly updated) TAO
state.  `now` is the clock value at the continual-training step. -/
def analyze (comps : Components) (text : String) (now : ℕ) :
    PipelineResult × Option TAOState :=
  if text = "" ∨ pyStrip text = "" then
    ({ label := "Uncertain", confidence := 0.0, explanation := "Empty input."
       counterfactual := none, reasoning := none
       tao_status := some "No input provided.", last_update := none
       evidence := [] }, comps.tao)
  else
    let evidence_docs :=
      match comps.ret with
      | some r => retrieve r.faissR r.wikiR r.newsR r.scoreFn r.scoreErr text 6
      | none => []
    let evidence_texts :=
      (evidence_docs.filter (fun d => d.text != "")).map (fun d => d.text)
    let decoding_cfg :=
      match comps.tao with
      | some _ => some (optimize_generation comps.optErr comps.draws)
      | none => none
    match comps.gen with
    | none =>
        ({ label := "Uncertain", confidence := 0.5
           explanation := "Generator not available."
           counterfactual := none, reasoning := none
           tao_status := some "Skipped (no generator)", last_update := none
           evidence := evidence_docs }, comps.tao)
    | some g =>
        let out := generate_explanation g.model g.jloads text evidence_texts decoding_cfg
        match comps.tao with
        | some st =>
            let sample : Sample := { text := text, label := out.label }
            let trained := continual_train st [sample] now
            ({ label := out.label, confidence := out.confidence
               explanation := out.explanation
               counterfactual := out.counterfactual, reasoning := out.reasoning
               tao_status := some trained.2
               last_update := some trained.1.last_update
               evidence := evidence_docs }, some trained.1)
        | none =>
            ({ label := out.label, confidence := out.confidence
               explanation := out.explanation
               counterfactual := out.counterfactual, reasoning := out.reasoning
               tao_status := some "TAO module not loaded.", last_update := none
               evidence := evidence_docs }, none)

/-! Concrete instances used by counterexamples and witnesses. -/

/-- Oracle agreeing with `json.loads` on the single concrete model output
used below: on the text consisting of a brace-delimited object whose only
key is label with value Maybe, `json.loads` yields exactly that
dictionary. -/
def jlMaybe : String → Option JDict := fun s =>
  if s = "\x7b\"label\": \"Maybe\"\x7d" then
    some { label := some "Maybe", confidence := some 0.5, explanation := some "",
           counterfactual := some "", reasoning := some [] }
  else none

/-- Fixed draws for a pipeline whose TAO optimizer is never consulted. -/
def trivDraws : Draws := { u_temp := 0.7, beam_choice := 4, u_rep := 1.2 }

/-- A pipeline whose three collaborators all failed to construct. -/
def trivComps : Components :=
  { ret := none, gen := none, tao := none, draws := trivDraws, optErr := false }

/-- Concrete FAISS adapter for the retrieval witness. -/
def faissR0 : String → ℕ → List EvidenceItem :=
  fun _ _ => [{ source := "local_FAISS", text := "a", score := some 0.2 }]

/-- Concrete Wikipedia adapter for the retrieval witness. -/
def wikiR0 : String → ℕ → List EvidenceItem :=
  fun _ _ => [{ source := "w", text := "b", score := none }]

/-- Concrete NewsAPI adapter for the retrieval witness. -/
def newsR0 : String → ℕ → List EvidenceItem := fun _ _ => []

/-- Concrete score function for the retrieval witness (a tie, so the
stable tie-break is exercised). -/
def scoreFn0 : String → String → ℚ := fun _ _ => 0.5

/-- Concrete in-range random draws for the optimizer witness. -/
def draws0 : Draws := { u_temp := 0.77, beam_choice := 2, u_rep := 1.15 }

/-! Supporting lemmas about the stable descending sort. -/

lemma insertScoreDesc_perm (e : EvidenceItem) (l : List EvidenceItem) :
    (insertScoreDesc e l).Perm (e :: l) := by
  induction l with
  | nil => rfl
  | cons x xs ih =>
    rw [insertScoreDesc]
    by_cases h : scoreKey x ≤ scoreKey e
    · rw [if_pos h]
    · rw [if_neg h]
      exact (ih.cons x).trans (List.Perm.swap e x xs)

lemma sortScoreDesc_perm (l : List EvidenceItem) : (sortScoreDesc l).Perm l := by
  induction l with
  | nil => rfl
  | cons e es ih =>
    rw [sortScoreDesc]
    exact (insertScoreDesc_perm e (sortScoreDesc es)).trans (ih.cons e)

lemma insertScoreDesc_sorted (e : EvidenceItem) (l : List EvidenceItem)
    (h : l.Pairwise (fun a b => scoreKey b ≤ scoreKey a)) :
    (insertScoreDesc e l).Pairwise (fun a b => scoreKey b ≤ scoreKey a) := by
  induction l with
  | nil => simp [insertScoreDesc]
  | cons x xs ih =>
    rw [List.pairwise_cons] at h
    rw [insertScoreDesc]
    by_cases hx : scoreKey x ≤ scoreKey e
    · rw [if_pos hx]
      refine List.pairwise_cons.mpr ⟨?_, List.pairwise_cons.mpr h⟩
      intro b hb
      rcases List.mem_cons.mp hb with rfl | hb
      · exact hx
      · exact le_trans (h.1 b hb) hx
    · rw [if_neg hx]
      refine List.pairwise_cons.mpr ⟨?_, ih h.2⟩
      intro b hb
      rcases List.mem_cons.mp ((insertScoreDesc_perm e xs).mem_iff.mp hb) with rfl | hb
      · exact le_of_lt (lt_of_not_le hx)
      · exact h.1 b hb

lemma sortScoreDesc_sorted (l : List EvidenceItem) :
    (sortScoreDesc l).Pairwise (fun a b => scoreKey b ≤ scoreKey a) := by
  induction l with
  | nil => simp [sortScoreDesc]
  | cons e es ih =>
    rw [sortScoreDesc]
    exact insertScoreDesc_sorted e _ ih

lemma filter_insertScoreDesc_eq (e : EvidenceItem) (l : List EvidenceItem) (s : ℚ)
    (h : scoreKey e = s) :
    (insertScoreDesc e l).filter (fun x => scoreKey x == s) =
      e :: l.filter (fun x => scoreKey x == s) := by
  induction l with
  | nil => simp [insertScoreDesc, List.filter_cons, h]
  | cons x xs ih =>
    rw [insertScoreDesc]
    by_cases hx : scoreKey x ≤ scoreKey e
    · rw [if_pos hx]
      simp [List.filter_cons, h]
    · rw [if_neg hx]
      have hxs : (scoreKey x == s) = false := by
        apply beq_false_of_ne
        intro heq
        exact hx (le_of_eq (heq.trans h.symm))
      simp [List.filter_cons, hxs, ih]

lemma filter_insertScoreDesc_ne (e : EvidenceItem) (l : List EvidenceItem) (s : ℚ)
    (h : scoreKey e ≠ s) :
    (insertScoreDesc e l).filter (fun x => scoreKey x == s) =
      l.filter (fun x => scoreKey x == s) := by
  have he : (scoreKey e == s) = false := beq_false_of_ne h
  induction l with
  | nil => simp [insertScoreDesc, List.filter_cons, he]
  | cons x xs ih =>
    rw [insertScoreDesc]
    by_cases hx : scoreKey x ≤ scoreKey e
    · rw [if_pos hx]
      simp [List.filter_cons, he]
    · rw [if_neg hx]
      simp [List.filter_cons, ih]

lemma sortScoreDesc_filter (l : List EvidenceItem) (s : ℚ) :
    (sortScoreDesc l).filter (fun x => scoreKey x == s) =
      l.filter (fun x => scoreKey x == s) := by
  induction l with
  | nil => rfl
  | cons e es ih =>
    rw [sortScoreDesc]
    by_cases h : scoreKey e = s
    · rw [filter_insertScoreDesc_eq e _ s h, ih, List.filter_cons]
      simp [h]
    · rw [filter_insertScoreDesc_ne e _ s h, ih, List.filter_cons]
      simp [beq_false_of_ne h]

/-! Supporting lemmas about Python rounding. -/

lemma le_roundHalfEven (x : ℚ) (m : ℤ) (h : (m : ℚ) ≤ x) : m ≤ roundHalfEven x := by
  have hf : m ≤ ⌊x⌋ := Int.le_floor.mpr h
  rw [roundHalfEven]
  split_ifs <;> omega

lemma roundHalfEven_le (x : ℚ) (n : ℤ) (h : x ≤ (n : ℚ)) : roundHalfEven x ≤ n := by
  have hfn : ⌊x⌋ ≤ n := by
    rw [← Int.floor_intCast (α := ℚ) n]
    exact Int.floor_le_floor h
  have hfl : (⌊x⌋ : ℚ) ≤ x := Int.floor_le x
  rw [roundHalfEven]
  split_ifs with h1 h2 h3
  · exact hfn
  · have hlt : (⌊x⌋ : ℚ) < (n : ℚ) := by linarith
    have : ⌊x⌋ < n := by exact_mod_cast hlt
    omega
  · exact hfn
  · have hhalf : (⌊x⌋ : ℚ) + 1/2 ≤ x := by linarith
    have hlt : (⌊x⌋ : ℚ) < (n : ℚ) := by linarith
    have : ⌊x⌋ < n := by exact_mod_cast hlt
    omega

lemma pyRound2_bounds (x : ℚ) (m n : ℤ)
    (hm : (m : ℚ) / 100 ≤ x) (hn : x ≤ (n : ℚ) / 100) :
    (m : ℚ) / 100 ≤ pyRound2 x ∧ pyRound2 x ≤ (n : ℚ) / 100 := by
  have h1 : (m : ℚ) ≤ x * 100 := by linarith
  have h2 : x * 100 ≤ (n : ℚ) := by linarith
  have l1 : (m : ℚ) ≤ (roundHalfEven (x * 100) : ℚ) := by
    exact_mod_cast le_roundHalfEven (x * 100) m h1
  have l2 : ((roundHalfEven (x * 100) : ℤ) : ℚ) ≤ (n : ℚ) := by
    exact_mod_cast roundHalfEven_le (x * 100) n h2
  rw [pyRound2]
  constructor <;> [linarith; linarith]

/-! Supporting lemmas about continual training. -/

lemma continual_train_nonempty (st : TAOState) (b : List Sample) (t : ℕ) (h : b ≠ []) :
    (continual_train st b t).1 =
      { steps := st.steps + b.length
        updates := st.updates + 1
        loss := max 0.01 (0.5 - 0.05 * ((st.updates + 1 : ℕ) : ℚ))
        last_update := t } := by
  rw [continual_train, if_neg h]

lemma runBatches_closed (calls : List (List Sample × ℕ)) :
    ∀ st : TAOState, (∀ c ∈ calls, c.1 ≠ []) →
      (runBatches st calls).updates = st.updates + calls.length ∧
      (calls ≠ [] → (runBatches st calls).loss =
        max 0.01 (0.5 - 0.05 * ((st.updates + calls.length : ℕ) : ℚ))) := by
  induction calls with
  | nil =>
    intro st _
    exact ⟨by simp [runBatches], fun hc => absurd rfl hc⟩
  | cons c rest ih =>
    intro st h
    obtain ⟨b, t⟩ := c
    have hb : b ≠ [] := h (b, t) (List.mem_cons_self _ _)
    have hrest : ∀ c ∈ rest, c.1 ≠ [] := fun c hc => h c (List.mem_cons_of_mem _ hc)
    have hst' := continual_train_nonempty st b t hb
    have hupd : (continual_train st b t).1.updates = st.updates + 1 := by rw [hst']
    obtain ⟨ih1, ih2⟩ := ih (continual_train st b t).1 hrest
    have hrun : runBatches st ((b, t) :: rest) =
        runBatches (continual_train st b t).1 rest := rfl
    constructor
    · rw [hrun, ih1, hupd, List.length_cons]
      omega
    · intro _
      by_cases hr : rest = []
      · subst hr
        rw [hrun]
        show (continual_train st b t).1.loss = _
        rw [hst', List.length_cons]
        norm_num
      · rw [hrun, ih2 hr, hupd, List.length_cons]
        have harith : st.updates + 1 + rest.length = st.updates + (rest.length + 1) := by
          omega
        rw [harith]

/-! Claim theorems. -/

/-- Claim C1 (counterexample): the label invariant fails on the code as
stated.  When the model output is a well-formed JSON object whose label
field holds a value outside the enum (here the string Maybe), the parser
passes it through unvalidated, so the returned label is none of True,
Fake, Uncertain. -/
theorem parse_output_nonEnum_label :
    (parse_output jlMaybe "\x7b\"label\": \"Maybe\"\x7d").label = "Maybe" ∧
    ¬((parse_output jlMaybe "\x7b\"label\": \"Maybe\"\x7d").label = "True" ∨
      (parse_output jlMaybe "\x7b\"label\": \"Maybe\"\x7d").label = "Fake" ∨
      (parse_output jlMaybe "\x7b\"label\": \"Maybe\"\x7d").label = "Uncertain") := by
  decide

/-- Claim C1 (amended): on the two non-JSON paths — heuristic fallback
and parse exception — the label is always one of the three enum values,
and on the JSON path a missing label (and any parse failure) defaults to
Uncertain; a label present in the parsed JSON object, however, is passed
through unvalidated. -/
theorem parse_output_label_default (jl : String → Option JDict) (text : String) :
    (pyStartsWith (pyStrip text) "\x7b" = false →
      (parse_output jl text).label = "Fake" ∨ (parse_output jl text).label = "True" ∨
        (parse_output jl text).label = "Uncertain") ∧
    (pyStartsWith (pyStrip text) "\x7b" = true → jl text = none →
      (parse_output jl text).label = "Uncertain") ∧
    (pyStartsWith (pyStrip text) "\x7b" = true → ∀ d : JDict, jl text = some d →
      (parse_output jl text).label = d.label.getD "Uncertain") := by
  refine ⟨?_, ?_, ?_⟩
  · intro h
    rw [parse_output, if_neg (by rw [h]; exact Bool.false_ne_true)]
    by_cases h1 : (pyIn "not true" (pyLower text) || pyIn "false" (pyLower text)) = true
    · simp only [h1, if_true]
      tauto
    · rw [Bool.not_eq_true] at h1
      simp only [h1]
      by_cases h2 : pyIn "true" (pyLower text) = true
      · simp only [h2]
        tauto
      · rw [Bool.not_eq_true] at h2
        simp only [h2]
        tauto
  · intro h hn
    rw [parse_output, if_pos h, hn]
  · intro h d hd
    rw [parse_output, if_pos h, hd]

/-- Claim C1 (witness): a structured output that fails to parse yields
the Uncertain label. -/
theorem parse_output_label_default_w :
    pyStartsWith (pyStrip "\x7bbad json") "\x7b" = true ∧
    (parse_output (fun _ => none) "\x7bbad json").label = "Uncertain" :=
  ⟨by decide, (parse_output_label_default (fun _ => none) "\x7bbad json").2.1 (by decide) rfl⟩

/-- Claim C2 (counterexample): a whitespace-only claim is NOT
short-circuited — `generate_explanation` checks `not claim`, which is
false for a one-space string, so the generation path runs (here with a
model answering "false", producing a Fake verdict instead of the fixed
empty-claim dictionary). -/
theorem generate_explanation_ws_cex :
    generate_explanation (fun _ _ => "false") (fun _ => none) " " [] none ≠
      { label := "Uncertain", confidence := 0.0, explanation := "Empty claim",
        counterfactual := none, reasoning := none } := by
  decide

/-- Claim C2 (amended): for the empty claim string (Python's only falsy
string), `generate_explanation` returns the fixed Uncertain/0.0/"Empty
claim" verdict immediately, for every generation model and parser oracle
— so no generation call can influence the result. -/
theorem generate_explanation_empty_claim (gm : String → Option DecodingParams → String)
    (jl : String → Option JDict) (ev : List String) (p : Option DecodingParams) :
    generate_explanation gm jl "" ev p =
      { label := "Uncertain", confidence := 0.0, explanation := "Empty claim",
        counterfactual := none, reasoning := none } := rfl

/-- Claim C3: with a non-empty adapter concatenation and a successful
scoring pass, `retrieve` returns at most `top_k` items, pairwise sorted
in descending score order, every returned score being the similarity
`scoreFn` of the query with the item's text (overwriting adapter-supplied
scores), and for every score value the equal-score items appear as a
prefix of their concatenation-order listing (stable tie-break). -/
theorem retrieve_sorted_topk (faissR wikiR newsR : String → ℕ → List EvidenceItem)
    (scoreFn : String → String → ℚ) (query : String) (top_k : ℕ)
    (hq : query ≠ "")
    (hne : mergedEvidence faissR wikiR newsR query top_k ≠ []) :
    (retrieve faissR wikiR newsR scoreFn false query top_k).length ≤ top_k ∧
    (retrieve faissR wikiR newsR scoreFn false query top_k).Pairwise
      (fun a b => scoreKey b ≤ scoreKey a) ∧
    (∀ e ∈ retrieve faissR wikiR newsR scoreFn false query top_k,
      e.score = some (scoreFn query e.text)) ∧
    (∀ s : ℚ,
      (retrieve faissR wikiR newsR scoreFn false query top_k).filter
          (fun e => scoreKey e == s) <+:
        (scoredEvidence faissR wikiR newsR scoreFn query top_k).filter
          (fun e => scoreKey e == s)) := by
  have hr : retrieve faissR wikiR newsR scoreFn false query top_k =
      (sortScoreDesc (scoredEvidence faissR wikiR newsR scoreFn query top_k)).take top_k := by
    rw [retrieve, if_neg hq, if_neg hne]
    rfl
  rw [hr]
  refine ⟨List.length_take_le top_k _, ?_, ?_, ?_⟩
  · exact List.Pairwise.sublist (List.take_sublist top_k _) (sortScoreDesc_sorted _)
  · intro e he
    have h1 : e ∈ sortScoreDesc (scoredEvidence faissR wikiR newsR scoreFn query top_k) :=
      (List.take_sublist top_k _).mem he
    have h2 : e ∈ scoredEvidence faissR wikiR newsR scoreFn query top_k :=
      (sortScoreDesc_perm _).mem_iff.mp h1
    obtain ⟨e0, _, rfl⟩ := List.mem_map.mp h2
    rfl
  · intro s
    have hp : List.take top_k
          (sortScoreDesc (scoredEvidence faissR wikiR newsR scoreFn query top_k)) <+:
        sortScoreDesc (scoredEvidence faissR wikiR newsR scoreFn query top_k) :=
      List.take_prefix top_k _
    have hf := List.IsPrefix.filter (fun e => scoreKey e == s) hp
    rwa [sortScoreDesc_filter] at hf

/-- Claim C3 (witness): a two-item concatenation with tied scores,
top_k = 5. -/
theorem retrieve_sorted_topk_w :
    ("q" : String) ≠ "" ∧
    mergedEvidence faissR0 wikiR0 newsR0 "q" 5 ≠ [] ∧
    ((retrieve faissR0 wikiR0 newsR0 scoreFn0 false "q" 5).length ≤ 5 ∧
      (retrieve faissR0 wikiR0 newsR0 scoreFn0 false "q" 5).Pairwise
        (fun a b => scoreKey b ≤ scoreKey a) ∧
      (∀ e ∈ retrieve faissR0 wikiR0 newsR0 scoreFn0 false "q" 5,
        e.score = some (scoreFn0 "q" e.text)) ∧
      (∀ s : ℚ,
        (retrieve faissR0 wikiR0 newsR0 scoreFn0 false "q" 5).filter
            (fun e => scoreKey e == s) <+:
          (scoredEvidence faissR0 wikiR0 newsR0 scoreFn0 "q" 5).filter
            (fun e => scoreKey e == s))) :=
  ⟨by decide, by decide,
    retrieve_sorted_topk faissR0 wikiR0 newsR0 scoreFn0 "q" 5 (by decide) (by decide)⟩

/-- Claim C4: starting from a fresh optimizer, after any non-empty
sequence of `continual_train` calls with non-empty batches, `updates`
equals the number of calls and `loss` equals
max(0.01, 0.5 − 0.05·n) exactly; moreover the final loss is that same
function of the final update count, independent of the batch contents
(the statement quantifies over all batch sequences). -/
theorem continual_train_loss_curve (t0 : ℕ) (calls : List (List Sample × ℕ))
    (hne : calls ≠ []) (hb : ∀ c ∈ calls, c.1 ≠ []) :
    (runBatches (TAOInit t0) calls).updates = calls.length ∧
    (runBatches (TAOInit t0) calls).loss =
      max 0.01 (0.5 - 0.05 * (calls.length : ℚ)) ∧
    (runBatches (TAOInit t0) calls).loss =
      max 0.01 (0.5 - 0.05 * ((runBatches (TAOInit t0) calls).updates : ℚ)) := by
  obtain ⟨h1, h2⟩ := runBatches_closed calls (TAOInit t0) hb
  have h1' : (runBatches (TAOInit t0) calls).updates = calls.length := by
    rw [h1]
    simp [TAOInit]
  have h2' := h2 hne
  refine ⟨h1', ?_, ?_⟩
  · rw [h2']
    norm_num [TAOInit]
  · rw [h2', h1']
    norm_num [TAOInit]

/-- Claim C4 (witness): one ingest call with a one-sample batch. -/
theorem continual_train_loss_curve_w :
    ([([{ text := "a", label := "True" }], 5)] : List (List Sample × ℕ)) ≠ [] ∧
    (∀ c ∈ ([([{ text := "a", label := "True" }], 5)] : List (List Sample × ℕ)), c.1 ≠ []) ∧
    ((runBatches (TAOInit 0) [([{ text := "a", label := "True" }], 5)]).updates =
        ([([{ text := "a", label := "True" }], 5)] : List (List Sample × ℕ)).length ∧
      (runBatches (TAOInit 0) [([{ text := "a", label := "True" }], 5)]).loss =
        max 0.01 (0.5 - 0.05 *
          ((([([{ text := "a", label := "True" }], 5)] : List (List Sample × ℕ)).length : ℚ))) ∧
      (runBatches (TAOInit 0) [([{ text := "a", label := "True" }], 5)]).loss =
        max 0.01 (0.5 - 0.05 *
          ((runBatches (TAOInit 0) [([{ text := "a", label := "True" }], 5)]).updates : ℚ))) :=
  ⟨by decide, by decide,
    continual_train_loss_curve 0 [([{ text := "a", label := "True" }], 5)]
      (by decide) (by decide)⟩

/-- Claim C5: calling `continual_train` with an empty batch returns the
"no data" status string and leaves every field of the state unchanged. -/
theorem continual_train_empty_batch (st : TAOState) (now : ℕ) :
    continual_train st [] now = (st, "No data provided for TAO training.") := rfl

/-- Claim C6: whenever the random draws lie in their documented ranges
(uniform [0.6, 0.9], choice of 2/4/6, uniform [1.0, 1.3]),
`optimize_generation` returns temperature in [0.6, 0.9], beam width in
2/4/6 and repetition penalty in [1.0, 1.3] — on the error path it
returns exactly the fixed default, which also satisfies the bounds. -/
theorem optimize_generation_bounds (err : Bool) (d : Draws)
    (ht1 : 0.6 ≤ d.u_temp) (ht2 : d.u_temp ≤ 0.9)
    (hb : d.beam_choice = 2 ∨ d.beam_choice = 4 ∨ d.beam_choice = 6)
    (hr1 : 1.0 ≤ d.u_rep) (hr2 : d.u_rep ≤ 1.3) :
    (0.6 ≤ (optimize_generation err d).temperature ∧
      (optimize_generation err d).temperature ≤ 0.9) ∧
    ((optimize_generation err d).num_beams = 2 ∨
      (optimize_generation err d).num_beams = 4 ∨
      (optimize_generation err d).num_beams = 6) ∧
    (1.0 ≤ (optimize_generation err d).repetition_penalty ∧
      (optimize_generation err d).repetition_penalty ≤ 1.3) ∧
    (err = true → optimize_generation err d =
      { temperature := 0.7, num_beams := 4, repetition_penalty := 1.2 }) := by
  cases err with
  | true =>
    refine ⟨⟨by norm_num [optimize_generation], by norm_num [optimize_generation]⟩,
      ?_, ⟨by norm_num [optimize_generation], by norm_num [optimize_generation]⟩,
      fun _ => rfl⟩
    right; left; rfl
  | false =>
    have htb := pyRound2_bounds d.u_temp 60 90 (by push_cast; linarith) (by push_cast; linarith)
    have hrb := pyRound2_bounds d.u_rep 100 130 (by push_cast; linarith) (by push_cast; linarith)
    refine ⟨⟨?_, ?_⟩, ?_, ⟨?_, ?_⟩, fun hcontra => by simp at hcontra⟩
    · have := htb.1
      rw [optimize_generation, if_neg (by simp)]
      push_cast at this ⊢
      linarith
    · have := htb.2
      rw [optimize_generation, if_neg (by simp)]
      push_cast at this ⊢
      linarith
    · rw [optimize_generation, if_neg (by simp)]
      exact hb
    · have := hrb.1
      rw [optimize_generation, if_neg (by simp)]
      push_cast at this ⊢
      linarith
    · have := hrb.2
      rw [optimize_generation, if_neg (by simp)]
      push_cast at this ⊢
      linarith

/-- Claim C6 (witness): in-range draws on the non-error path. -/
theorem optimize_generation_bounds_w :
    ((0.6 : ℚ) ≤ draws0.u_temp ∧ draws0.u_temp ≤ 0.9) ∧
    (draws0.beam_choice = 2 ∨ draws0.beam_choice = 4 ∨ draws0.beam_choice = 6) ∧
    ((1.0 : ℚ) ≤ draws0.u_rep ∧ draws0.u_rep ≤ 1.3) ∧
    ((0.6 ≤ (optimize_generation false draws0).temperature ∧
        (optimize_generation false draws0).temperature ≤ 0.9) ∧
      ((optimize_generation false draws0).num_beams = 2 ∨
        (optimize_generation false draws0).num_beams = 4 ∨
        (optimize_generation false draws0).num_beams = 6) ∧
      (1.0 ≤ (optimize_generation false draws0).repetition_penalty ∧
        (optimize_generation false draws0).repetition_penalty ≤ 1.3) ∧
      (false = true → optimize_generation false draws0 =
        { temperature := 0.7, num_beams := 4, repetition_penalty := 1.2 })) :=
  ⟨⟨by norm_num [draws0], by norm_num [draws0]⟩, Or.inl rfl,
    ⟨by norm_num [draws0], by norm_num [draws0]⟩,
    optimize_generation_bounds false draws0 (by norm_num [draws0]) (by norm_num [draws0])
      (Or.inl rfl) (by norm_num [draws0]) (by norm_num [draws0])⟩

/-- Claim C7: whenever the joined lower-cased evidence contains both
"false" and "proves", correction rule (a) fires — label Fake, confidence
max(existing, 0.9) and the rule-(a) explanation — so rule (c), which
would set True on "proves", is never evaluated. -/
theorem correct_rule_a_priority (v : Verdict) (claim : String) (texts : List String)
    (hF : pyIn "false" (pyLower (joinSp texts)) = true)
    (hP : pyIn "proves" (pyLower (joinSp texts)) = true) :
    (correct_with_evidence v claim texts).label = "Fake" ∧
    (correct_with_evidence v claim texts).confidence = max v.confidence 0.9 ∧
    (correct_with_evidence v claim texts).explanation =
      "Evidence indicates the claim contradicts scientific consensus." := by
  have hA : ruleACond (pyLower (joinSp texts)) = true := by
    simp [ruleACond, ruleATerms, hF]
  simp [correct_with_evidence, hA]

/-- Claim C7 (witness): evidence containing both trigger words. -/
theorem correct_rule_a_priority_w :
    pyIn "false" (pyLower (joinSp ["It proves the story is false."])) = true ∧
    pyIn "proves" (pyLower (joinSp ["It proves the story is false."])) = true ∧
    ((correct_with_evidence
        { label := "True", confidence := 0.8, explanation := "e",
          counterfactual := none, reasoning := none }
        "c" ["It proves the story is false."]).label = "Fake" ∧
      (correct_with_evidence
        { label := "True", confidence := 0.8, explanation := "e",
          counterfactual := none, reasoning := none }
        "c" ["It proves the story is false."]).confidence =
        max (0.8 : ℚ) 0.9 ∧
      (correct_with_evidence
        { label := "True", confidence := 0.8, explanation := "e",
          counterfactual := none, reasoning := none }
        "c" ["It proves the story is false."]).explanation =
        "Evidence indicates the claim contradicts scientific consensus.") :=
  ⟨by decide, by decide,
    correct_rule_a_priority _ "c" ["It proves the story is false."] (by decide) (by decide)⟩

/-- Claim C8: for every parsed verdict, with the flat-Earth claim and the
"Scientific consensus confirms Earth is round." evidence, rule (b) fires
(rule (a) does not match, and rule (c) is never reached despite the word
"confirms") giving label Fake with confidence 0.95 and the rule-(b)
explanation. -/
theorem correct_flat_earth_scenario (v : Verdict) :
    (correct_with_evidence v "The Earth is flat."
      ["Scientific consensus confirms Earth is round."]).label = "Fake" ∧
    (correct_with_evidence v "The Earth is flat."
      ["Scientific consensus confirms Earth is round."]).confidence = 0.95 ∧
    (correct_with_evidence v "The Earth is flat."
      ["Scientific consensus confirms Earth is round."]).explanation =
      "Scientific consensus confirms Earth is spherical, not flat." :=
  ⟨rfl, rfl, rfl⟩

/-- Claim C9: for empty or whitespace-only input, `analyze` returns the
fixed Uncertain/0.0/"Empty input." result with empty evidence, for every
configuration of collaborators, and the TAO state is returned unchanged —
so neither the retriever, nor the adaptation engine, nor the generator
can influence the outcome. -/
theorem analyze_empty_input (comps : Components) (text : String) (now : ℕ)
    (h : text = "" ∨ pyStrip text = "") :
    analyze comps text now =
      ({ label := "Uncertain", confidence := 0.0, explanation := "Empty input.",
         counterfactual := none, reasoning := none,
         tao_status := some "No input provided.", last_update := none,
         evidence := [] }, comps.tao) := by
  rw [analyze, if_pos h]

/-- Claim C9 (witness): a one-space input on a pipeline with no
collaborators. -/
theorem analyze_empty_input_w :
    ((" " : String) = "" ∨ pyStrip " " = "") ∧
    analyze trivComps " " 0 =
      ({ label := "Uncertain", confidence := 0.0, explanation := "Empty input.",
         counterfactual := none, reasoning := none,
         tao_status := some "No input provided.", last_update := none,
         evidence := [] }, trivComps.tao) :=
  ⟨Or.inr (by decide), analyze_empty_input trivComps " " 0 (Or.inr (by decide))⟩

/-- Claim C10: when neither rule (a) nor rule (b) matches and rule (c)
or rule (d) fires, the correction pass changes only label and confidence:
explanation, counterfactual and reasoning are returned unchanged. -/
theorem correct_rules_cd_frame (v : Verdict) (claim : String) (texts : List String)
    (hA : ruleACond (pyLower (joinSp texts)) = false)
    (hB : (pyIn "scientific consensus" (pyLower (joinSp texts)) &&
            pyIn "flat" (pyLower claim)) = false)
    (hCD : (pyIn "confirm" (pyLower (joinSp texts)) ||
              pyIn "proves" (pyLower (joinSp texts))) = true ∨
           (pyIn "no evidence" (pyLower (joinSp texts)) ||
              pyIn "unclear" (pyLower (joinSp texts))) = true) :
    (correct_with_evidence v claim texts).explanation = v.explanation ∧
    (correct_with_evidence v claim texts).counterfactual = v.counterfactual ∧
    (correct_with_evidence v claim texts).reasoning = v.reasoning := by
  by_cases hC : (pyIn "confirm" (pyLower (joinSp texts)) ||
      pyIn "proves" (pyLower (joinSp texts))) = true
  · simp [correct_with_evidence, hA, hB, hC]
  · rcases hCD with hCD | hD
    · exact absurd hCD hC
    · rw [Bool.not_eq_true] at hC
      simp [correct_with_evidence, hA, hB, hC, hD]

/-- Claim C10 (witness): rule (c) firing on "confirms" evidence leaves
the explanatory fields intact. -/
theorem correct_rules_cd_frame_w :
    ruleACond (pyLower (joinSp ["data confirms it"])) = false ∧
    (pyIn "scientific consensus" (pyLower (joinSp ["data confirms it"])) &&
      pyIn "flat" (pyLower "y")) = false ∧
    ((correct_with_evidence
        { label := "Uncertain", confidence := 0.5, explanation := "ex",
          counterfactual := some "cf", reasoning := some [] }
        "y" ["data confirms it"]).explanation = "ex" ∧
      (correct_with_evidence
        { label := "Uncertain", confidence := 0.5, explanation := "ex",
          counterfactual := some "cf", reasoning := some [] }
        "y" ["data confirms it"]).counterfactual = some "cf" ∧
      (correct_with_evidence
        { label := "Uncertain", confidence := 0.5, explanation := "ex",
          counterfactual := some "cf", reasoning := some [] }
        "y" ["data confirms it"]).reasoning = some []) :=
  ⟨by decide, by decide,
    correct_rules_cd_frame _ "y" ["data confirms it"] (by decide) (by decide)
      (Or.inl (by decide))⟩

end FakeNews
